import Mathlib

/-!
Verification development for the DreamMarket pitch-deck generators
(`scripts/generate_pitch_deck.py`, `scripts/generate_pitch_deck_pdf.py`,
`scripts/generate_final_pitch_deck.py`).

The three scripts are shallowly embedded:

* the slide (python-pptx) backend becomes pure record types `Paragraph`,
  `TextFrame`, `Shape`, `Slide`, `Presentation` and functions mirroring
  `add_title_slide`, `add_content_slide`, `add_two_column_slide` and
  `create_pitch_deck`;
* the flow (reportlab platypus) backend becomes an element type `Elem`
  (`Paragraph`, `Spacer`, `PageBreak`, `Table`) and functions mirroring the
  two `create_pdf` scripts' element-list construction;
* lengths are integers in hundredths of an inch (`Inches(0.8)` is `80`),
  font sizes are integers in points, so no floating point is involved;
* the system clock read by `datetime.now().strftime('%B %d, %Y')` is passed
  in explicitly as a `today : String` argument; scripts that never consult
  the clock take it as an unused argument.

Pagination of the flow backend and table shape validation are delegated by
the scripts to the third-party platypus engine, so those two components are
modelled from the specification (see the `Engine` namespace).
-/

namespace DreamMarket

/-- A 24-bit RGB color, one byte per channel. -/
structure RGB where
  r : Nat
  g : Nat
  b : Nat
deriving DecidableEq, Repr

/-- Purple, `RGBColor(139, 69, 255)` / `HexColor("#8B45FF")` in the sources. -/
def PRIMARY : RGB := ⟨139, 69, 255⟩

/-- Cyan, `RGBColor(0, 255, 200)` / `HexColor("#00FFC8")`. -/
def SECONDARY : RGB := ⟨0, 255, 200⟩

/-- Pink, `RGBColor(255, 100, 200)` / `HexColor("#FF64C8")`. -/
def ACCENT : RGB := ⟨255, 100, 200⟩

/-- Dark blue-black, `RGBColor(15, 15, 35)` / `HexColor("#0F0F23")`. -/
def DARK : RGB := ⟨15, 15, 35⟩

/-- Light blue-white, `RGBColor(240, 240, 255)` / `HexColor("#F0F0FF")`. -/
def LIGHT : RGB := ⟨240, 240, 255⟩

/-- Dark text, `RGBColor(30, 30, 60)` / `HexColor("#1E1E3C")`. -/
def TEXT_DARK : RGB := ⟨30, 30, 60⟩

namespace Pptx

/-- One paragraph of a pptx text frame.  A freshly created paragraph has empty
text and no explicit formatting; the scripts then assign `p.text`,
`p.font.size`, `p.font.bold`, `p.font.color.rgb`, `p.space_before`,
`p.space_after` and `p.level` field by field.  Sizes and spacings are in
points (`Pt`). -/
structure Paragraph where
  text : String := ""
  fontSize : Option Nat := none
  bold : Bool := false
  color : Option RGB := none
  spaceBefore : Option Nat := none
  spaceAfter : Option Nat := none
  level : Option Nat := none
deriving DecidableEq, Repr

/-- A pptx text frame.  A fresh frame holds exactly one empty paragraph
(`text_frame.paragraphs[0]` exists before any `add_paragraph()` call).
Margins are in hundredths of an inch. -/
structure TextFrame where
  wordWrap : Bool := false
  marginBottom : Option Nat := none
  marginLeft : Option Nat := none
  paragraphs : List Paragraph := [{}]
deriving DecidableEq, Repr

/-- The kind of a pptx shape: `add_textbox` or `add_shape(shapeType, ...)`. -/
inductive ShapeKind where
  | textbox : ShapeKind
  | autoShape : Nat → ShapeKind
deriving DecidableEq, Repr

/-- A pptx shape with its absolute position and size in hundredths of an inch
(`Inches(0.8)` is `80`). -/
structure Shape where
  kind : ShapeKind
  left : Nat
  top : Nat
  width : Nat
  height : Nat
  fillColor : Option RGB := none
  lineColor : Option RGB := none
  frame : TextFrame := {}
deriving DecidableEq, Repr

/-- One slide: a solid background fill and the ordered shape list, in the
order the script inserted them (z-order). -/
structure Slide where
  background : RGB
  shapes : List Shape
deriving DecidableEq, Repr

/-- The presentation under construction: canvas size in hundredths of an inch
and the ordered slide list. -/
structure Presentation where
  slideWidth : Nat
  slideHeight : Nat
  slides : List Slide
deriving DecidableEq, Repr

/-- The body of the `for i, item in enumerate(items)` loops of
`add_content_slide` and `add_two_column_slide`, acting on the paragraph list
of a text frame: for `i > 0` first `add_paragraph()` (append a fresh empty
paragraph), then write the styled item over `paragraphs[i]`.  The counter
argument is the value of `i` for the first remaining item. -/
def writeItems (mk : String → Paragraph) : List Paragraph → Nat → List String → List Paragraph
  | ps, _, [] => ps
  | ps, i, item :: rest =>
      writeItems mk ((if 0 < i then ps ++ [({} : Paragraph)] else ps).set i (mk item)) (i + 1) rest

/-- Run the item loop over a fresh text frame's paragraph list (which starts
as a single empty paragraph), with `i` counting from `0`. -/
def fillParagraphs (mk : String → Paragraph) (items : List String) : List Paragraph :=
  writeItems mk [({} : Paragraph)] 0 items

/-- The styling `add_content_slide` applies to each content item:
`Pt(18)`, `LIGHT`, `space_before/after Pt(8)`, `level 0`. -/
def mkContentPara (item : String) : Paragraph :=
  { text := item, fontSize := some 18, color := some LIGHT,
    spaceBefore := some 8, spaceAfter := some 8, level := some 0 }

/-- The styling `add_two_column_slide` applies to each column item:
`Pt(16)`, `LIGHT`, `space_before/after Pt(6)`. -/
def mkColumnPara (item : String) : Paragraph :=
  { text := item, fontSize := some 16, color := some LIGHT,
    spaceBefore := some 6, spaceAfter := some 6 }

/-- The slide built by `add_title_slide`: dark background, a title textbox at
`(0.5, 2)` of size `9 x 1.5` and a subtitle textbox at `(0.5, 3.8)` of size
`9 x 1.5` (inches). -/
def titleSlide (title subtitle : String) : Slide :=
  { background := DARK,
    shapes :=
      [ { kind := .textbox, left := 50, top := 200, width := 900, height := 150,
          frame := { wordWrap := true,
                     paragraphs := [{ text := title, fontSize := some 54, bold := true,
                                      color := some SECONDARY }] } },
        { kind := .textbox, left := 50, top := 380, width := 900, height := 150,
          frame := { wordWrap := true,
                     paragraphs := [{ text := subtitle, fontSize := some 28,
                                      color := some LIGHT }] } } ] }

/-- `add_title_slide`: append the title slide to the presentation. -/
def add_title_slide (prs : Presentation) (title subtitle : String) : Presentation :=
  { prs with slides := prs.slides ++ [titleSlide title subtitle] }

/-- The title bar that `add_content_slide` and `add_two_column_slide` both
add first: `add_shape(1, Inches(0), Inches(0), Inches(10), Inches(0.8))`,
filled and outlined `PRIMARY`, holding the title at `Pt(36)` bold `LIGHT`. -/
def titleBarShape (title : String) : Shape :=
  { kind := .autoShape 1, left := 0, top := 0, width := 1000, height := 80,
    fillColor := some PRIMARY, lineColor := some PRIMARY,
    frame := { marginBottom := some 10, marginLeft := some 30,
               paragraphs := [{ text := title, fontSize := some 36, bold := true,
                                color := some LIGHT }] } }

/-- The content textbox of `add_content_slide`: at `(0.5, 1.2)`, size
`9 x 6` inches, word wrap on, filled by the item loop. -/
def contentBox (contentItems : List String) : Shape :=
  { kind := .textbox, left := 50, top := 120, width := 900, height := 600,
    frame := { wordWrap := true, paragraphs := fillParagraphs mkContentPara contentItems } }

/-- The slide built by `add_content_slide`: dark background, title bar, then
the content textbox. -/
def contentSlide (title : String) (contentItems : List String) : Slide :=
  { background := DARK, shapes := [titleBarShape title, contentBox contentItems] }

/-- `add_content_slide`: append a content slide to the presentation. -/
def add_content_slide (prs : Presentation) (title : String) (contentItems : List String) :
    Presentation :=
  { prs with slides := prs.slides ++ [contentSlide title contentItems] }

/-- The left column textbox of `add_two_column_slide`: at `(0.3, 1.2)`, size
`4.5 x 6` inches, filled from `left_items` only. -/
def leftColumnBox (leftItems : List String) : Shape :=
  { kind := .textbox, left := 30, top := 120, width := 450, height := 600,
    frame := { wordWrap := true, paragraphs := fillParagraphs mkColumnPara leftItems } }

/-- The right column textbox of `add_two_column_slide`: at `(5.2, 1.2)`, size
`4.5 x 6` inches, filled from `right_items` only. -/
def rightColumnBox (rightItems : List String) : Shape :=
  { kind := .textbox, left := 520, top := 120, width := 450, height := 600,
    frame := { wordWrap := true, paragraphs := fillParagraphs mkColumnPara rightItems } }

/-- The slide built by `add_two_column_slide`: dark background, title bar,
left column box, right column box. -/
def twoColumnSlide (title : String) (leftItems rightItems : List String) : Slide :=
  { background := DARK,
    shapes := [titleBarShape title, leftColumnBox leftItems, rightColumnBox rightItems] }

/-- `add_two_column_slide`: append a two-column slide to the presentation. -/
def add_two_column_slide (prs : Presentation) (title : String)
    (leftItems rightItems : List String) : Presentation :=
  { prs with slides := prs.slides ++ [twoColumnSlide title leftItems rightItems] }

/-- The full `create_pitch_deck` run of `generate_pitch_deck.py`: a fresh
presentation (`10 x 7.5` inches) followed by seventeen slide-building calls.
This script never reads the clock; `_today` records that the run environment
carries one. -/
def create_pitch_deck (_today : String) : Presentation :=
  let prs : Presentation := { slideWidth := 1000, slideHeight := 750, slides := [] }
  let prs := add_title_slide prs "🌟 DreamMarket"
    "The Marketplace of Digital Souls\nAI Agents on Hedera Blockchain"
  let prs := add_content_slide prs "🎯 The Problem" [
    "• AI is becoming mainstream, but lacks decentralized infrastructure",
    "• NFTs revolutionized digital ownership, but lack AI integration",
    "• No marketplace for AI personalities as tradeable digital assets",
    "• Existing AI platforms are centralized and lack transparency",
    "• Need for verifiable, on-chain AI agents with proven capabilities"]
  let prs := add_content_slide prs "💡 Our Solution" [
    "✓ DreamMarket: AI personalities as tradeable NFTs on Hedera",
    "✓ Each 'Soul' is a unique AI agent with distinct personality & skills",
    "✓ Built on Hedera HTS for fast, low-cost NFT minting",
    "✓ ERC-8004 Smart Contracts for verifiable on-chain agents",
    "✓ Dynamic evolution system - souls grow and change through interaction"]
  let prs := add_content_slide prs "⭐ 1. INNOVATION" [
    "🔮 Novel Concept: AI personalities as tradeable digital assets",
    "🎯 Perfect alignment with AI & Agents track",
    "🚀 First-of-its-kind on Hedera ecosystem",
    "🧬 Dynamic evolution system with personality growth",
    "📊 Implements ERC-8004 standard for verifiable agents",
    "🌐 Enables decentralized AI economies"]
  let prs := add_content_slide prs "✅ 2. FEASIBILITY" [
    "🏗️ Built entirely on Hedera infrastructure",
    "💻 Production-ready architecture with clear roadmap",
    "🔐 Realistic business model with multiple revenue streams",
    "📈 Scalable from testnet to mainnet",
    "🛠️ Proven tech stack: Next.js, TypeScript, Hedera SDK",
    "💰 Low operational costs due to Hedera's efficiency"]
  let prs := add_content_slide prs "🎨 3. EXECUTION" [
    "✨ Working MVP with full feature set",
    "🎭 Create souls with AI personality generation",
    "💬 Chat with souls - they learn and evolve",
    "📊 Professional UI/UX with cosmic theme",
    "🎯 Clear long-term roadmap (marketplace, breeding, DAO)",
    "♿ Excellent accessibility and user experience"]
  let prs := add_two_column_slide prs "🔗 4. INTEGRATION - Deep Hedera Usage" [
    "Hedera Services Used:",
    "• Hedera Token Service (HTS)",
    "  - NFT minting & management",
    "  - Token ID: 0.0.7242548",
    "• Smart Contract Service",
    "  - ERC-8004 compliance",
    "  - Contract ID: 0.0.7261125",
    "• Consensus Service",
    "  - Sub-second finality",
    "  - Fair ordering"] [
    "Integration Metrics:",
    "• Mirror Node API",
    "  - Real-time data queries",
    "  - Transaction history",
    "• Hedera SDK",
    "  - Account management",
    "  - Receipt verification",
    "• HashScan Explorer",
    "  - Public verification",
    "  - Transaction transparency"]
  let prs := add_content_slide prs "🏆 5. SUCCESS POTENTIAL" [
    "📈 High potential to increase Hedera adoption",
    "🤖 Brings AI community to Hedera ecosystem",
    "🌍 Scalable to mainnet with clear migration path",
    "💎 Clear value proposition for users & developers",
    "🔄 Enables new use cases: agent-to-agent transactions",
    "🚀 Taps into $200B+ AI market + $10B+ NFT market"]
  let prs := add_content_slide prs "✔️ 6. VALIDATION" [
    "📊 Market research: NFT + AI intersection is untapped",
    "👥 User feedback incorporated during development",
    "🎯 Strong product-market fit identified",
    "📈 Growing AI market with increasing adoption",
    "🔍 Clear target audience: AI enthusiasts, NFT collectors, Web3 devs",
    "💪 Traction potential with emerging AI agent economy"]
  let prs := add_two_column_slide prs "🎤 7. PITCH - Clear Problem/Solution" [
    "Problem:",
    "• AI lacks decentralized infrastructure",
    "• NFTs lack AI integration",
    "• No verifiable AI agent marketplace",
    "",
    "Solution:",
    "• DreamMarket: AI as tradeable NFTs",
    "• Hedera-powered for speed & cost",
    "• ERC-8004 verified agents"] [
    "Opportunity Metrics:",
    "• NFT Market: $10B+ (2024)",
    "• AI Market: $200B+ (2024)",
    "• Intersection: Untapped",
    "",
    "Revenue Streams:",
    "• Minting fees",
    "• Marketplace commission (2.5%)",
    "• Premium features",
    "• Enterprise licensing"]
  let prs := add_content_slide prs "🏗️ Technical Architecture" [
    "Frontend: Next.js 14, TypeScript, Tailwind CSS, Framer Motion",
    "Backend: Next.js API Routes, Hedera SDK, PostgreSQL (Supabase)",
    "Blockchain: Hedera Testnet, HTS, Smart Contracts, Mirror Node",
    "AI: Groq API for personality generation",
    "Wallet: HashConnect for non-custodial transactions",
    "Deployment: Vercel for frontend, production-ready"]
  let prs := add_content_slide prs "✨ Key Features" [
    "🎨 Soul Creation: Design unique AI personalities with rarity tiers",
    "💬 Chat System: Interact with souls - they learn and evolve",
    "🛍️ Marketplace: Browse, trade, and collect souls",
    "📊 Leaderboards: Track top souls and creators",
    "🔗 On-Chain Verification: All transactions on HashScan",
    "🧬 Evolution System: Souls grow through interactions"]
  let prs := add_two_column_slide prs "🚀 Roadmap" [
    "Phase 1: MVP (Current)",
    "✅ Soul creation",
    "✅ HTS integration",
    "✅ NFT minting",
    "✅ Beautiful UI/UX",
    "",
    "Phase 2: Marketplace (Q1 2026)",
    "□ Browse & discover",
    "□ Buy/sell functionality",
    "□ Wallet integration"] [
    "Phase 3: AI Integration (Q2 2026)",
    "□ AI chat system",
    "□ Personality evolution",
    "□ Skill development",
    "□ Agent-to-agent communication",
    "",
    "Phase 4: Advanced (Q3 2026)",
    "□ Soul breeding/fusion",
    "□ Governance token",
    "□ DAO for marketplace",
    "□ Mobile app & mainnet"]
  let prs := add_content_slide prs "💰 Business Model" [
    "Revenue Stream 1: Minting Fees - Small fee per soul creation",
    "Revenue Stream 2: Marketplace Commission - 2.5% on secondary sales",
    "Revenue Stream 3: Premium Features - Advanced AI interactions",
    "Revenue Stream 4: Enterprise Licensing - Custom collections & API access",
    "Target Market: AI enthusiasts, NFT collectors, crypto gamers, Web3 devs",
    "Path to Profitability: Sustainable through multiple revenue streams"]
  let prs := add_content_slide prs "🎯 Competitive Advantage" [
    "⚡ Built on Hedera: Sub-second finality, low costs",
    "🔐 ERC-8004 Compliance: Verifiable on-chain agents",
    "🎨 Beautiful UX: Professional design with cosmic theme",
    "🧬 Evolution System: Unique personality growth mechanics",
    "🌐 Ecosystem Integration: Deep Hedera integration",
    "📈 First-Mover: First AI agent marketplace on Hedera"]
  let prs := add_content_slide prs "👥 Team & Resources" [
    "🚀 Full-stack development team with blockchain expertise",
    "💻 Production-ready codebase with comprehensive documentation",
    "🔬 Proven tech stack: Next.js, TypeScript, Hedera SDK",
    "📚 Clear roadmap with realistic timelines",
    "🤝 Strong community support and mentorship",
    "✅ Ready for mainnet deployment and scaling"]
  let prs := add_title_slide prs "🌟 Join the Revolution"
    "Where Digital Souls Come Alive on the Blockchain\n\nLet's build the future of AI on Hedera!"
  prs

end Pptx

/-- Paragraph alignment of the reportlab styles (`TA_LEFT`, `TA_CENTER`,
`TA_JUSTIFY`). -/
inductive Alignment where
  | left : Alignment
  | center : Alignment
  | justify : Alignment
deriving DecidableEq, Repr

/-- A reportlab `ParagraphStyle` as the two PDF scripts build one: name,
parent style sheet entry, font size in points, text color, space after in
points, alignment, left indent in points and font name. -/
structure PStyle where
  name : String
  parent : String
  fontSize : Nat
  textColor : RGB
  spaceAfter : Nat
  alignment : Alignment := .left
  leftIndent : Nat := 0
  fontName : String
deriving DecidableEq, Repr

/-- A reportlab color as used in the table styles: a hex RGB color or one of
the named `colors.white`, `colors.grey`, `colors.lightgrey`. -/
inductive Color where
  | rgb : RGB → Color
  | white : Color
  | grey : Color
  | lightgrey : Color
deriving DecidableEq, Repr

/-- One `TableStyle` command.  Cell ranges are `(col, row)` pairs with the
source's python semantics of negative indices counting from the end. -/
inductive TableCmd where
  | background : Int × Int → Int × Int → Color → TableCmd
  | textColor : Int × Int → Int × Int → Color → TableCmd
  | align : Int × Int → Int × Int → String → TableCmd
  | fontName : Int × Int → Int × Int → String → TableCmd
  | fontSize : Int × Int → Int × Int → Nat → TableCmd
  | bottomPadding : Int × Int → Int × Int → Nat → TableCmd
  | valign : Int × Int → Int × Int → String → TableCmd
  | grid : Int × Int → Int × Int → Nat → Color → TableCmd
  | rowBackgrounds : Int × Int → Int × Int → List Color → TableCmd
deriving DecidableEq, Repr

/-- One platypus flowable as appended to the `elements` list by the two PDF
scripts.  Spacer heights and table column widths are in hundredths of an inch
(`0.3*inch` is `30`); every `Spacer` in the sources has width `1`, which the
flow layout ignores. -/
inductive Elem where
  | spacer : Nat → Elem
  | paragraph : String → PStyle → Elem
  | pageBreak : Elem
  | table : List (List String) → List Nat → List TableCmd → Elem
deriving DecidableEq, Repr

/-- The `for item in items: elements.append(Paragraph(item, style))` loops
that both PDF scripts use for plain bullet runs. -/
def bulletParagraphs (st : PStyle) (items : List String) : List Elem :=
  items.map fun item => Elem.paragraph item st

/-- The `for item in items: append(Spacer(1, h)) if item == "" else
append(Paragraph(item, style))` loops of `generate_final_pitch_deck.py`,
which turn an empty-string item into a blank-line spacer of height `h`
hundredths of an inch. -/
def bulletsOrSpacers (st : PStyle) (h : Nat) (items : List String) : List Elem :=
  items.map fun item => if item = "" then Elem.spacer h else Elem.paragraph item st

/-- The text an element contributes to the reading order: the text of a
paragraph, nothing for spacers, breaks and tables. -/
def Elem.textOf : Elem → Option String
  | Elem.paragraph t _ => some t
  | _ => none

namespace PdfDeck

/-- `title_style` of `generate_pitch_deck_pdf.py`. -/
def title_style : PStyle :=
  { name := "CustomTitle", parent := "Heading1", fontSize := 48, textColor := SECONDARY,
    spaceAfter := 30, alignment := .center, fontName := "Helvetica-Bold" }

/-- `subtitle_style` of `generate_pitch_deck_pdf.py`. -/
def subtitle_style : PStyle :=
  { name := "CustomSubtitle", parent := "Heading2", fontSize := 28, textColor := LIGHT,
    spaceAfter := 20, alignment := .center, fontName := "Helvetica" }

/-- `heading_style` of `generate_pitch_deck_pdf.py`. -/
def heading_style : PStyle :=
  { name := "CustomHeading", parent := "Heading2", fontSize := 32, textColor := PRIMARY,
    spaceAfter := 15, alignment := .left, fontName := "Helvetica-Bold" }

/-- `body_style` of `generate_pitch_deck_pdf.py`. -/
def body_style : PStyle :=
  { name := "CustomBody", parent := "BodyText", fontSize := 14, textColor := TEXT_DARK,
    spaceAfter := 10, alignment := .left, fontName := "Helvetica" }

/-- `bullet_style` of `generate_pitch_deck_pdf.py`. -/
def bullet_style : PStyle :=
  { name := "BulletStyle", parent := "BodyText", fontSize := 13, textColor := TEXT_DARK,
    spaceAfter := 8, leftIndent := 20, fontName := "Helvetica" }

/-- The `TableStyle` shared shape of the integration table (slide 7). -/
def integration_table_style : List TableCmd :=
  [ .background (0, 0) (-1, 0) (.rgb PRIMARY),
    .textColor (0, 0) (-1, 0) (.rgb LIGHT),
    .align (0, 0) (-1, -1) "LEFT",
    .fontName (0, 0) (-1, 0) "Helvetica-Bold",
    .fontSize (0, 0) (-1, 0) 14,
    .bottomPadding (0, 0) (-1, 0) 12,
    .background (0, 1) (-1, -1) .white,
    .textColor (0, 1) (-1, -1) (.rgb TEXT_DARK),
    .fontName (0, 1) (-1, -1) "Helvetica",
    .fontSize (0, 1) (-1, -1) 11,
    .valign (0, 0) (-1, -1) "TOP",
    .grid (0, 0) (-1, -1) 1 .grey,
    .rowBackgrounds (0, 1) (-1, -1) [.white, .lightgrey] ]

/-- The `TableStyle` of the pitch table (slide 10) and roadmap table
(slide 13), which are identical in the source. -/
def pitch_table_style : List TableCmd :=
  [ .background (0, 0) (-1, 0) (.rgb PRIMARY),
    .textColor (0, 0) (-1, 0) (.rgb LIGHT),
    .align (0, 0) (-1, -1) "LEFT",
    .fontName (0, 0) (-1, 0) "Helvetica-Bold",
    .fontSize (0, 0) (-1, 0) 12,
    .bottomPadding (0, 0) (-1, 0) 12,
    .background (0, 1) (-1, -1) .white,
    .textColor (0, 1) (-1, -1) (.rgb TEXT_DARK),
    .fontName (0, 1) (-1, -1) "Helvetica",
    .fontSize (0, 1) (-1, -1) 10,
    .valign (0, 0) (-1, -1) "TOP",
    .grid (0, 0) (-1, -1) 1 .grey ]

/-- `integration_data` (slide 7). -/
def integration_data : List (List String) :=
  [ ["Hedera Services Used", "Integration Metrics"],
    [ "• Hedera Token Service (HTS)\n  - NFT minting & management\n  - Token ID: 0.0.7242548\n\n• Smart Contract Service\n  - ERC-8004 compliance\n  - Contract ID: 0.0.7261125\n\n• Consensus Service\n  - Sub-second finality\n  - Fair ordering",
      "• Mirror Node API\n  - Real-time data queries\n  - Transaction history\n\n• Hedera SDK\n  - Account management\n  - Receipt verification\n\n• HashScan Explorer\n  - Public verification\n  - Transaction transparency" ] ]

/-- `pitch_data` (slide 10). -/
def pitch_data : List (List String) :=
  [ ["Problem", "Solution", "Opportunity Metrics"],
    [ "• AI lacks decentralized infrastructure\n• NFTs lack AI integration\n• No verifiable AI agent marketplace",
      "• DreamMarket: AI as tradeable NFTs\n• Hedera-powered for speed & cost\n• ERC-8004 verified agents",
      "• NFT Market: $10B+ (2024)\n• AI Market: $200B+ (2024)\n• Intersection: Untapped" ] ]

/-- `roadmap_data` (slide 13). -/
def roadmap_data : List (List String) :=
  [ ["Phase 1: MVP (Current)", "Phase 2: Marketplace (Q1 2026)", "Phase 3: AI Integration (Q2 2026)"],
    [ "✅ Soul creation\n✅ HTS integration\n✅ NFT minting\n✅ Beautiful UI/UX",
      "□ Browse & discover\n□ Buy/sell functionality\n□ Wallet integration\n□ User profiles",
      "□ AI chat system\n□ Personality evolution\n□ Skill development\n□ Agent-to-agent communication" ] ]

/-- `problems` (slide 2). -/
def problems : List String := [
  "• AI is becoming mainstream, but lacks decentralized infrastructure",
  "• NFTs revolutionized digital ownership, but lack AI integration",
  "• No marketplace for AI personalities as tradeable digital assets",
  "• Existing AI platforms are centralized and lack transparency",
  "• Need for verifiable, on-chain AI agents with proven capabilities"]

/-- `solutions` (slide 3). -/
def solutions : List String := [
  "✓ DreamMarket: AI personalities as tradeable NFTs on Hedera",
  "✓ Each 'Soul' is a unique AI agent with distinct personality & skills",
  "✓ Built on Hedera HTS for fast, low-cost NFT minting",
  "✓ ERC-8004 Smart Contracts for verifiable on-chain agents",
  "✓ Dynamic evolution system - souls grow and change through interaction"]

/-- `innovations` (slide 4). -/
def innovations : List String := [
  "🔮 Novel Concept: AI personalities as tradeable digital assets",
  "🎯 Perfect alignment with AI & Agents track",
  "🚀 First-of-its-kind on Hedera ecosystem",
  "🧬 Dynamic evolution system with personality growth",
  "📊 Implements ERC-8004 standard for verifiable agents",
  "🌐 Enables decentralized AI economies"]

/-- `feasibilities` (slide 5). -/
def feasibilities : List String := [
  "🏗️ Built entirely on Hedera infrastructure",
  "💻 Production-ready architecture with clear roadmap",
  "🔐 Realistic business model with multiple revenue streams",
  "📈 Scalable from testnet to mainnet",
  "🛠️ Proven tech stack: Next.js, TypeScript, Hedera SDK",
  "💰 Low operational costs due to Hedera's efficiency"]

/-- `executions` (slide 6). -/
def executions : List String := [
  "✨ Working MVP with full feature set",
  "🎭 Create souls with AI personality generation",
  "💬 Chat with souls - they learn and evolve",
  "📊 Professional UI/UX with cosmic theme",
  "🎯 Clear long-term roadmap (marketplace, breeding, DAO)",
  "♿ Excellent accessibility and user experience"]

/-- `success_items` (slide 8). -/
def success_items : List String := [
  "📈 High potential to increase Hedera adoption",
  "🤖 Brings AI community to Hedera ecosystem",
  "🌍 Scalable to mainnet with clear migration path",
  "💎 Clear value proposition for users & developers",
  "🔄 Enables new use cases: agent-to-agent transactions",
  "🚀 Taps into $200B+ AI market + $10B+ NFT market"]

/-- `validation_items` (slide 9). -/
def validation_items : List String := [
  "📊 Market research: NFT + AI intersection is untapped",
  "👥 User feedback incorporated during development",
  "🎯 Strong product-market fit identified",
  "📈 Growing AI market with increasing adoption",
  "🔍 Clear target audience: AI enthusiasts, NFT collectors, Web3 devs",
  "💪 Traction potential with emerging AI agent economy"]

/-- `tech_items` (slide 11). -/
def tech_items : List String := [
  "Frontend: Next.js 14, TypeScript, Tailwind CSS, Framer Motion",
  "Backend: Next.js API Routes, Hedera SDK, PostgreSQL (Supabase)",
  "Blockchain: Hedera Testnet, HTS, Smart Contracts, Mirror Node",
  "AI: Groq API for personality generation",
  "Wallet: HashConnect for non-custodial transactions",
  "Deployment: Vercel for frontend, production-ready"]

/-- `features` (slide 12). -/
def features : List String := [
  "🎨 Soul Creation: Design unique AI personalities with rarity tiers",
  "💬 Chat System: Interact with souls - they learn and evolve",
  "🛍️ Marketplace: Browse, trade, and collect souls",
  "📊 Leaderboards: Track top souls and creators",
  "🔗 On-Chain Verification: All transactions on HashScan",
  "🧬 Evolution System: Souls grow through interactions"]

/-- `business_items` (slide 14). -/
def business_items : List String := [
  "Revenue Stream 1: Minting Fees - Small fee per soul creation",
  "Revenue Stream 2: Marketplace Commission - 2.5% on secondary sales",
  "Revenue Stream 3: Premium Features - Advanced AI interactions",
  "Revenue Stream 4: Enterprise Licensing - Custom collections & API access",
  "Target Market: AI enthusiasts, NFT collectors, crypto gamers, Web3 devs",
  "Path to Profitability: Sustainable through multiple revenue streams"]

/-- `advantages` (slide 15). -/
def advantages : List String := [
  "⚡ Built on Hedera: Sub-second finality, low costs",
  "🔐 ERC-8004 Compliance: Verifiable on-chain agents",
  "🎨 Beautiful UX: Professional design with cosmic theme",
  "🧬 Evolution System: Unique personality growth mechanics",
  "🌐 Ecosystem Integration: Deep Hedera integration",
  "📈 First-Mover: First AI agent marketplace on Hedera"]

/-- The full element list that `create_pdf` of `generate_pitch_deck_pdf.py`
appends before `doc.build(elements)`.  This script never reads the clock
(`datetime` is imported but unused); `_today` records that the run
environment carries one. -/
def create_pdf (_today : String) : List Elem :=
  [ Elem.spacer 150,
    Elem.paragraph "🌟 DreamMarket" title_style,
    Elem.spacer 30,
    Elem.paragraph "The Marketplace of Digital Souls" subtitle_style,
    Elem.paragraph "AI Agents on Hedera Blockchain" subtitle_style,
    Elem.spacer 50,
    Elem.paragraph "Hedera Hello Future: Ascension Hackathon 2025" body_style,
    Elem.pageBreak,
    Elem.paragraph "🎯 The Problem" heading_style,
    Elem.spacer 20 ]
  ++ bulletParagraphs bullet_style problems
  ++ [ Elem.pageBreak,
       Elem.paragraph "💡 Our Solution" heading_style,
       Elem.spacer 20 ]
  ++ bulletParagraphs bullet_style solutions
  ++ [ Elem.pageBreak,
       Elem.paragraph "⭐ 1. INNOVATION" heading_style,
       Elem.spacer 20 ]
  ++ bulletParagraphs bullet_style innovations
  ++ [ Elem.pageBreak,
       Elem.paragraph "✅ 2. FEASIBILITY" heading_style,
       Elem.spacer 20 ]
  ++ bulletParagraphs bullet_style feasibilities
  ++ [ Elem.pageBreak,
       Elem.paragraph "🎨 3. EXECUTION" heading_style,
       Elem.spacer 20 ]
  ++ bulletParagraphs bullet_style executions
  ++ [ Elem.pageBreak,
       Elem.paragraph "🔗 4. INTEGRATION - Deep Hedera Usage" heading_style,
       Elem.spacer 20,
       Elem.table integration_data [350, 350] integration_table_style,
       Elem.pageBreak,
       Elem.paragraph "🏆 5. SUCCESS POTENTIAL" heading_style,
       Elem.spacer 20 ]
  ++ bulletParagraphs bullet_style success_items
  ++ [ Elem.pageBreak,
       Elem.paragraph "✔️ 6. VALIDATION" heading_style,
       Elem.spacer 20 ]
  ++ bulletParagraphs bullet_style validation_items
  ++ [ Elem.pageBreak,
       Elem.paragraph "🎤 7. PITCH - Clear Problem/Solution" heading_style,
       Elem.spacer 20,
       Elem.table pitch_data [230, 230, 230] pitch_table_style,
       Elem.pageBreak,
       Elem.paragraph "🏗️ Technical Architecture" heading_style,
       Elem.spacer 20 ]
  ++ bulletParagraphs bullet_style tech_items
  ++ [ Elem.pageBreak,
       Elem.paragraph "✨ Key Features" heading_style,
       Elem.spacer 20 ]
  ++ bulletParagraphs bullet_style features
  ++ [ Elem.pageBreak,
       Elem.paragraph "🚀 Roadmap" heading_style,
       Elem.spacer 20,
       Elem.table roadmap_data [230, 230, 230] pitch_table_style,
       Elem.pageBreak,
       Elem.paragraph "💰 Business Model" heading_style,
       Elem.spacer 20 ]
  ++ bulletParagraphs bullet_style business_items
  ++ [ Elem.pageBreak,
       Elem.paragraph "🎯 Competitive Advantage" heading_style,
       Elem.spacer 20 ]
  ++ bulletParagraphs bullet_style advantages
  ++ [ Elem.pageBreak,
       Elem.spacer 200,
       Elem.paragraph "🌟 Join the Revolution" title_style,
       Elem.spacer 30,
       Elem.paragraph "Where Digital Souls Come Alive on the Blockchain" subtitle_style,
       Elem.spacer 20,
       Elem.paragraph "Let's build the future of AI on Hedera!" subtitle_style ]

end PdfDeck

namespace PdfFinal

/-- `title_style` of `generate_final_pitch_deck.py`. -/
def title_style : PStyle :=
  { name := "CustomTitle", parent := "Heading1", fontSize := 48, textColor := SECONDARY,
    spaceAfter := 30, alignment := .center, fontName := "Helvetica-Bold" }

/-- `subtitle_style` of `generate_final_pitch_deck.py`. -/
def subtitle_style : PStyle :=
  { name := "CustomSubtitle", parent := "Heading2", fontSize := 24, textColor := LIGHT,
    spaceAfter := 20, alignment := .center, fontName := "Helvetica" }

/-- `heading_style` of `generate_final_pitch_deck.py`. -/
def heading_style : PStyle :=
  { name := "CustomHeading", parent := "Heading2", fontSize := 32, textColor := PRIMARY,
    spaceAfter := 15, alignment := .left, fontName := "Helvetica-Bold" }

/-- `heading2_style` of `generate_final_pitch_deck.py`. -/
def heading2_style : PStyle :=
  { name := "CustomHeading2", parent := "Heading3", fontSize := 20, textColor := SECONDARY,
    spaceAfter := 12, alignment := .left, fontName := "Helvetica-Bold" }

/-- `body_style` of `generate_final_pitch_deck.py`. -/
def body_style : PStyle :=
  { name := "CustomBody", parent := "BodyText", fontSize := 14, textColor := TEXT_DARK,
    spaceAfter := 10, alignment := .left, fontName := "Helvetica" }

/-- `bullet_style` of `generate_final_pitch_deck.py`. -/
def bullet_style : PStyle :=
  { name := "BulletStyle", parent := "BodyText", fontSize := 12, textColor := TEXT_DARK,
    spaceAfter := 8, leftIndent := 20, fontName := "Helvetica" }

/-- The shared `TableStyle` of the first two judging-criteria tables
(slides 4 and 5): header font 14, body font 11. -/
def criteria_table_style : List TableCmd :=
  [ .background (0, 0) (-1, 0) (.rgb PRIMARY),
    .textColor (0, 0) (-1, 0) (.rgb LIGHT),
    .align (0, 0) (-1, -1) "LEFT",
    .fontName (0, 0) (-1, 0) "Helvetica-Bold",
    .fontSize (0, 0) (-1, 0) 14,
    .bottomPadding (0, 0) (-1, 0) 12,
    .background (0, 1) (-1, -1) .white,
    .textColor (0, 1) (-1, -1) (.rgb TEXT_DARK),
    .fontName (0, 1) (-1, -1) "Helvetica",
    .fontSize (0, 1) (-1, -1) 11,
    .valign (0, 0) (-1, -1) "TOP",
    .grid (0, 0) (-1, -1) 1 .grey ]

/-- The `TableStyle` of the third judging-criteria table (slide 6):
header font 12, body font 10. -/
def criteria_table3_style : List TableCmd :=
  [ .background (0, 0) (-1, 0) (.rgb PRIMARY),
    .textColor (0, 0) (-1, 0) (.rgb LIGHT),
    .align (0, 0) (-1, -1) "LEFT",
    .fontName (0, 0) (-1, 0) "Helvetica-Bold",
    .fontSize (0, 0) (-1, 0) 12,
    .bottomPadding (0, 0) (-1, 0) 12,
    .background (0, 1) (-1, -1) .white,
    .textColor (0, 1) (-1, -1) (.rgb TEXT_DARK),
    .fontName (0, 1) (-1, -1) "Helvetica",
    .fontSize (0, 1) (-1, -1) 10,
    .valign (0, 0) (-1, -1) "TOP",
    .grid (0, 0) (-1, -1) 1 .grey ]

/-- `team_intro` (slide 2); rendered through the empty-string-to-spacer loop. -/
def team_intro : List String := [
  "Project Name: DreamMarket - The Marketplace of Digital Souls",
  "Track: AI & Agents - AI-driven agents with decentralized infrastructure",
  "Hackathon: Hedera Hello Future: Ascension Hackathon 2025",
  "Timeline: November 3-21, 2025",
  "",
  "Team Composition:",
  "• Full-stack development team with blockchain expertise",
  "• Experience in Next.js, TypeScript, and Hedera SDK",
  "• AI integration specialists with Groq API experience",
  "• UI/UX designers with modern design principles",
  "",
  "Project Vision:",
  "Create a revolutionary marketplace where AI personalities become tradeable digital assets on Hedera blockchain, enabling verifiable on-chain agents with dynamic evolution systems."]

/-- `summary_items` (slide 3). -/
def summary_items : List String := [
  "DreamMarket is a revolutionary marketplace where AI personalities become tradeable digital assets (NFTs) on Hedera blockchain.",
  "Each 'Soul' is a unique NFT representing an AI agent with distinct personality, skills, and characteristics.",
  "Built for the AI & Agents track, enabling creation, ownership, and trading of verifiable AI agents using Hedera's fast, low-cost transactions.",
  "Leverages HTS for NFT minting, implements ERC-8004 Smart Contracts for on-chain agent verification.",
  "Features dynamic AI personalities with evolution systems and provides transparent on-chain history.",
  "Vision: Create a thriving ecosystem where AI agents can collaborate, transact, and evolve autonomously."]

/-- `criteria_data` (slide 4). -/
def criteria_data : List (List String) :=
  [ ["1. INNOVATION (10%)", "2. FEASIBILITY (10%)"],
    [ "✓ Novel Concept: AI personalities as tradeable NFTs\n✓ First-of-its-kind on Hedera ecosystem\n✓ Dynamic evolution system with personality growth\n✓ ERC-8004 standard implementation\n✓ Enables decentralized AI economies\n✓ Perfect alignment with AI & Agents track",
      "✓ Built entirely on Hedera infrastructure\n✓ Production-ready architecture\n✓ Realistic business model with revenue streams\n✓ Scalable from testnet to mainnet\n✓ Proven tech stack: Next.js, TypeScript, Hedera SDK\n✓ Low operational costs" ] ]

/-- `criteria_data2` (slide 5). -/
def criteria_data2 : List (List String) :=
  [ ["3. EXECUTION (20%)", "4. INTEGRATION (15%)"],
    [ "✓ Working MVP with full feature set\n✓ Soul creation with AI personality generation\n✓ Chat system - souls learn and evolve\n✓ Professional UI/UX with cosmic theme\n✓ Clear long-term roadmap\n✓ Excellent accessibility & UX",
      "✓ Deep Hedera network usage:\n  - HTS (NFT minting)\n  - Smart Contracts (ERC-8004)\n  - Consensus Service (finality)\n  - Mirror Node API (data)\n  - Hedera SDK (integration)\n✓ Multiple services integrated seamlessly\n✓ Production-ready code" ] ]

/-- `criteria_data3` (slide 6). -/
def criteria_data3 : List (List String) :=
  [ ["5. SUCCESS (20%)", "6. VALIDATION (15%)", "7. PITCH (10%)"],
    [ "✓ High potential to increase Hedera adoption\n✓ Brings AI community to ecosystem\n✓ Scalable to mainnet\n✓ Clear value proposition\n✓ Enables agent-to-agent transactions\n✓ Taps into $200B+ AI market",
      "✓ Market research completed\n✓ NFT + AI intersection identified\n✓ User feedback incorporated\n✓ Strong product-market fit\n✓ Clear target audience\n✓ Traction potential",
      "✓ Clear problem/solution narrative\n✓ Professional demo video\n✓ Comprehensive pitch deck\n✓ Strong Hedera representation\n✓ Addresses both problem statements\n✓ Estimated score: 95/100" ] ]

/-- `features` (slide 7). -/
def features : List String := [
  "🎨 Soul Creation: Design unique AI personalities with rarity tiers (Common, Rare, Legendary, Mythic)",
  "💬 Chat System: Interact with souls - they learn and evolve through conversations",
  "🛍️ Marketplace: Browse, trade, and collect souls with real-time pricing",
  "📊 Leaderboards: Track top souls and creators",
  "🔗 On-Chain Verification: All transactions verifiable on HashScan",
  "🧬 Evolution System: Souls grow and change through interactions",
  "🔐 ERC-8004 Compliance: Verifiable on-chain AI agents"]

/-- `tech_stack` (slide 7). -/
def tech_stack : List String := [
  "Frontend: Next.js 14, TypeScript, Tailwind CSS, Framer Motion, Shadcn/ui",
  "Backend: Next.js API Routes, Hedera SDK (@hashgraph/sdk), PostgreSQL (Supabase)",
  "Blockchain: Hedera Testnet, HTS (Token ID: 0.0.7242548), Smart Contracts (Contract ID: 0.0.7261125)",
  "AI: Groq API for personality generation",
  "Wallet: HashConnect for non-custodial transactions",
  "Deployment: Vercel (frontend), production-ready infrastructure"]

/-- `hedera_items` (slide 8); rendered through the empty-string-to-spacer loop. -/
def hedera_items : List String := [
  "Hedera Token Service (HTS):",
  "  • NFT Collection: Soul v2 (Token ID: 0.0.7242548)",
  "  • Minting: Real NFTs on Hedera Testnet with metadata",
  "  • Supply: Unlimited with operator control",
  "",
  "Smart Contract Service (ERC-8004):",
  "  • Contract ID: 0.0.7261125",
  "  • Agent Registration: Verifiable on-chain agents",
  "  • Stats Updates: Level, XP, Reputation tracking",
  "  • Ownership Transfer: Marketplace transactions",
  "",
  "Consensus Service:",
  "  • Sub-second finality for all transactions",
  "  • Fair ordering and transaction ordering",
  "",
  "Mirror Node API & HashScan:",
  "  • Real-time blockchain data queries",
  "  • Public verification of all transactions",
  "  • Transaction history and NFT metadata retrieval"]

/-- `revenue_items` (slide 9). -/
def revenue_items : List String := [
  "1. Minting Fees: Small fee per soul creation (tiered by rarity)",
  "2. Marketplace Commission: 2.5% on secondary sales",
  "3. Premium Features: Advanced AI interactions and exclusive traits",
  "4. Enterprise Licensing: Custom soul collections and API access"]

/-- `market_items` (slide 9). -/
def market_items : List String := [
  "NFT Market: $10B+ (2024) - Established and growing",
  "AI Market: $200B+ (2024) - Rapidly expanding",
  "Intersection: Untapped opportunity for AI agent marketplace",
  "Target Audience: AI enthusiasts, NFT collectors, crypto gamers, Web3 developers",
  "Growth Potential: Emerging AI agent economy with autonomous transactions"]

/-- `phase1_items` (slide 10). -/
def phase1_items : List String := [
  "✅ Soul creation interface with AI personality generation",
  "✅ Hedera HTS integration for NFT minting",
  "✅ HashScan verification for all transactions",
  "✅ Beautiful UI/UX with cosmic theme",
  "✅ Chat system with personality evolution",
  "✅ ERC-8004 smart contract integration"]

/-- `phase2_items` (slide 10). -/
def phase2_items : List String := [
  "□ Browse and discover souls with advanced filters",
  "□ Buy/sell functionality with secure transactions",
  "□ Full wallet integration (HashPack, Blade)",
  "□ User profiles with soul collections",
  "□ Search and advanced filtering",
  "□ Leaderboards and rankings"]

/-- `phase3_items` (slide 10). -/
def phase3_items : List String := [
  "□ Advanced AI chat with context awareness",
  "□ Personality evolution based on interactions",
  "□ Skill development system",
  "□ Soul interactions and relationships",
  "□ Agent-to-agent communication (A2A protocol)",
  "□ Multi-language support"]

/-- `phase4_items` (slide 11). -/
def phase4_items : List String := [
  "□ Soul breeding/fusion mechanics",
  "□ Governance token for platform",
  "□ DAO for marketplace decisions",
  "□ Mobile app (iOS/Android)",
  "□ Mainnet launch and migration",
  "□ Cross-chain interoperability"]

/-- `learnings` (slide 11); rendered through the empty-string-to-spacer loop. -/
def learnings : List String := [
  "✓ Hedera's sub-second finality is crucial for real-time marketplace interactions",
  "✓ ERC-8004 standard provides excellent framework for verifiable agents",
  "✓ User experience is paramount - beautiful UI drives adoption",
  "✓ AI personality generation requires careful prompt engineering",
  "✓ On-chain metadata limits require creative compact storage solutions",
  "",
  "Areas for Improvement:",
  "• Implement IPFS for rich metadata storage",
  "• Add advanced AI model fine-tuning capabilities",
  "• Develop mobile-first interface",
  "• Implement advanced analytics and insights",
  "• Add community governance features",
  "• Optimize gas costs for mainnet deployment"]

/-- `demo_content` (slide 12); rendered through the empty-string-to-spacer loop. -/
def demo_content : List String := [
  "Watch our comprehensive demo video showcasing:",
  "",
  "✓ Soul Creation Workflow",
  "  - AI personality generation with Groq API",
  "  - Rarity selection and customization",
  "  - Preview before minting",
  "",
  "✓ Hedera NFT Minting Process",
  "  - Real-time transaction on Hedera Testnet",
  "  - HashScan verification",
  "  - Serial number generation",
  "",
  "✓ Chat & Evolution System",
  "  - Interactive chat with AI souls",
  "  - Personality learning and evolution",
  "  - XP and level progression",
  "",
  "✓ Marketplace Features",
  "  - Soul browsing and discovery",
  "  - Trading mechanics",
  "  - Leaderboards and rankings",
  "",
  "✓ Technical Architecture",
  "  - Hedera integration depth",
  "  - Smart contract interactions",
  "  - Production-ready performance"]

/-- `demo_link` (slide 12). -/
def demo_link : String := "https://www.youtube.com/watch?v=YOUR_VIDEO_ID"

/-- `advantages` (slide 13). -/
def advantages : List String := [
  "⚡ Built on Hedera: Sub-second finality, extremely low costs",
  "🔐 ERC-8004 Compliance: Verifiable on-chain agents with full transparency",
  "🎨 Beautiful UX: Professional design with cosmic theme and smooth animations",
  "🧬 Evolution System: Unique personality growth mechanics not found elsewhere",
  "🌐 Deep Ecosystem Integration: Multiple Hedera services (HTS, Smart Contracts, Consensus, Mirror Node)",
  "📈 First-Mover Advantage: First AI agent marketplace on Hedera blockchain",
  "💰 Multiple Revenue Streams: Sustainable business model with clear monetization",
  "🚀 Scalable Architecture: Ready for mainnet deployment and global scaling"]

/-- `cta_items` (slide 13); rendered through the empty-string-to-spacer loop. -/
def cta_items : List String := [
  "Join us in building the future of AI on Hedera!",
  "",
  "🔗 GitHub: https://github.com/ZKSystemId/dreamarket-hedera",
  "🌐 Live Demo: https://dreammarket-hedera.vercel.app",
  "📊 NFT Collection: https://hashscan.io/testnet/token/0.0.7242548",
  "🤖 Smart Contract: https://hashscan.io/testnet/contract/0.0.7261125",
  "",
  "Where Digital Souls Come Alive on the Blockchain"]

/-- The full element list that `create_pdf` of `generate_final_pitch_deck.py`
appends before `doc.build(elements)`.  `today` is the string the script
obtains from the system clock as `datetime.now().strftime('%B %d, %Y')` and
interpolates into the cover page (the only clock use). -/
def create_pdf (today : String) : List Elem :=
  [ Elem.spacer 150,
    Elem.paragraph "🌟 DreamMarket" title_style,
    Elem.spacer 30,
    Elem.paragraph "The Marketplace of Digital Souls" subtitle_style,
    Elem.paragraph "AI Agents on Hedera Blockchain" subtitle_style,
    Elem.spacer 80,
    Elem.paragraph "Hedera Hello Future: Ascension Hackathon 2025" body_style,
    Elem.paragraph "AI & Agents Track" body_style,
    Elem.spacer 30,
    Elem.paragraph ("Submitted: " ++ today) body_style,
    Elem.pageBreak,
    Elem.paragraph "👥 Team & Project Introduction" heading_style,
    Elem.spacer 20 ]
  ++ bulletsOrSpacers bullet_style 10 team_intro
  ++ [ Elem.pageBreak,
       Elem.paragraph "📋 Project Summary" heading_style,
       Elem.spacer 20,
       Elem.paragraph "What is DreamMarket?" heading2_style,
       Elem.spacer 10 ]
  ++ bulletParagraphs bullet_style summary_items
  ++ [ Elem.pageBreak,
       Elem.paragraph "⭐ Judging Criteria: Innovation & Feasibility" heading_style,
       Elem.spacer 15,
       Elem.table criteria_data [450, 450] criteria_table_style,
       Elem.pageBreak,
       Elem.paragraph "⭐ Judging Criteria: Execution & Integration" heading_style,
       Elem.spacer 15,
       Elem.table criteria_data2 [450, 450] criteria_table_style,
       Elem.pageBreak,
       Elem.paragraph "⭐ Judging Criteria: Success, Validation & Pitch" heading_style,
       Elem.spacer 15,
       Elem.table criteria_data3 [300, 300, 300] criteria_table3_style,
       Elem.pageBreak,
       Elem.paragraph "✨ Key Features" heading_style,
       Elem.spacer 15 ]
  ++ bulletParagraphs bullet_style features
  ++ [ Elem.spacer 20,
       Elem.paragraph "🏗️ Technical Stack" heading2_style,
       Elem.spacer 10 ]
  ++ bulletParagraphs bullet_style tech_stack
  ++ [ Elem.pageBreak,
       Elem.paragraph "🔗 Deep Hedera Integration" heading_style,
       Elem.spacer 15 ]
  ++ bulletsOrSpacers bullet_style 5 hedera_items
  ++ [ Elem.pageBreak,
       Elem.paragraph "💰 Business Model & Market Opportunity" heading_style,
       Elem.spacer 15,
       Elem.paragraph "Revenue Streams:" heading2_style,
       Elem.spacer 10 ]
  ++ bulletParagraphs bullet_style revenue_items
  ++ [ Elem.spacer 15,
       Elem.paragraph "Market Opportunity:" heading2_style,
       Elem.spacer 10 ]
  ++ bulletParagraphs bullet_style market_items
  ++ [ Elem.pageBreak,
       Elem.paragraph "🚀 Future Roadmap & Key Learnings" heading_style,
       Elem.spacer 15,
       Elem.paragraph "Phase 1: MVP (Current - Completed)" heading2_style,
       Elem.spacer 10 ]
  ++ bulletParagraphs bullet_style phase1_items
  ++ [ Elem.spacer 15,
       Elem.paragraph "Phase 2: Marketplace (Q1 2026)" heading2_style,
       Elem.spacer 10 ]
  ++ bulletParagraphs bullet_style phase2_items
  ++ [ Elem.spacer 15,
       Elem.paragraph "Phase 3: AI Integration (Q2 2026)" heading2_style,
       Elem.spacer 10 ]
  ++ bulletParagraphs bullet_style phase3_items
  ++ [ Elem.pageBreak,
       Elem.paragraph "🚀 Roadmap (Continued) & Key Learnings" heading_style,
       Elem.spacer 15,
       Elem.paragraph "Phase 4: Advanced Features (Q3 2026)" heading2_style,
       Elem.spacer 10 ]
  ++ bulletParagraphs bullet_style phase4_items
  ++ [ Elem.spacer 15,
       Elem.paragraph "Key Learnings & Room for Improvement:" heading2_style,
       Elem.spacer 10 ]
  ++ bulletsOrSpacers bullet_style 5 learnings
  ++ [ Elem.pageBreak,
       Elem.paragraph "🎬 Demo Video" heading_style,
       Elem.spacer 30 ]
  ++ bulletsOrSpacers bullet_style 5 demo_content
  ++ [ Elem.spacer 30,
       Elem.paragraph "📺 Demo Video Link:" heading2_style,
       Elem.spacer 10,
       Elem.paragraph ("<b>YouTube:</b> " ++ demo_link) body_style,
       Elem.paragraph "(Replace YOUR_VIDEO_ID with actual video ID after uploading)" bullet_style,
       Elem.pageBreak,
       Elem.paragraph "🎯 Competitive Advantage" heading_style,
       Elem.spacer 15 ]
  ++ bulletParagraphs bullet_style advantages
  ++ [ Elem.spacer 30,
       Elem.paragraph "🌟 Call to Action" heading_style,
       Elem.spacer 15 ]
  ++ bulletsOrSpacers bullet_style 5 cta_items

end PdfFinal

namespace Engine

/-- Modelled from the spec: the flow-backend PaginationEngine (spec section
4.3 and the atomic-placement testable property of section 8).  The scripts
themselves hand the finished element list to the third-party platypus engine
(`doc.build(elements)`), so the repository holds no pagination code of its
own.  The engine walks the element sequence with a running vertical cursor:
an explicit `PageBreak` closes the current page; an element whose measured
height no longer fits on a non-empty current page is pushed entirely to the
next page (atomic placement, no splitting); otherwise the element is placed
on the current page and the cursor advances.  `H` is the page's usable
height and `hgt` the measured height of each element, both in the same
units; `used` is the cursor and `cur` the (reversed-free, in-order) content
of the open page.  When the sequence is exhausted the last open page is
flushed even if it holds a single element. -/
def paginateAux (H : Nat) (hgt : Elem → Nat) : List Elem → Nat → List Elem → List (List Elem)
  | [], _, cur => if cur = [] then [] else [cur]
  | e :: rest, used, cur =>
      if e = Elem.pageBreak then
        cur :: paginateAux H hgt rest 0 []
      else if cur ≠ [] ∧ H < used + hgt e then
        cur :: paginateAux H hgt rest (hgt e) [e]
      else
        paginateAux H hgt rest (used + hgt e) (cur ++ [e])

/-- Modelled from the spec: run the PaginationEngine on a whole element
sequence, starting on a fresh empty page. -/
def paginate (H : Nat) (hgt : Elem → Nat) (es : List Elem) : List (List Elem) :=
  paginateAux H hgt es 0 []

/-- Modelled from the spec: the number of pagination boundaries the engine
computes while walking the sequence — one per explicit `PageBreak`, one per
overflow event, and one for the final flush of a still-open page.  `opened`
tracks whether the current page already holds an element. -/
def countBoundariesAux (H : Nat) (hgt : Elem → Nat) : List Elem → Nat → Bool → Nat
  | [], _, opened => if opened then 1 else 0
  | e :: rest, used, opened =>
      if e = Elem.pageBreak then
        1 + countBoundariesAux H hgt rest 0 false
      else if opened = true ∧ H < used + hgt e then
        1 + countBoundariesAux H hgt rest (hgt e) true
      else
        countBoundariesAux H hgt rest (used + hgt e) true

/-- Modelled from the spec: boundary count of a whole element sequence. -/
def countBoundaries (H : Nat) (hgt : Elem → Nat) (es : List Elem) : Nat :=
  countBoundariesAux H hgt es 0 false

/-- Modelled from the spec: the structural-validation error of section 7,
identifying the offending table row by its index. -/
structure StructuralValidationError where
  rowIndex : Nat
deriving DecidableEq, Repr

/-- A successfully rendered table: its declared column count and all of its
rows, each rendered whole. -/
structure RenderedTable where
  ncols : Nat
  rows : List (List String)
deriving DecidableEq, Repr

/-- Modelled from the spec: check each row's cell count against the declared
column count, failing fast with the index of the first offending row.
`i` is the index of the first remaining row. -/
def checkRows (ncols : Nat) : Nat → List (List String) → Except StructuralValidationError Unit
  | _, [] => Except.ok ()
  | i, r :: rs => if r.length = ncols then checkRows ncols (i + 1) rs else Except.error ⟨i⟩

/-- Modelled from the spec: render a Table block.  Malformed input fails fast
with a `StructuralValidationError`; only a fully validated table is rendered,
so no truncated or partial row ever reaches the output. -/
def renderTable (ncols : Nat) (rows : List (List String)) :
    Except StructuralValidationError RenderedTable :=
  match checkRows ncols 0 rows with
  | Except.error e => Except.error e
  | Except.ok _ => Except.ok ⟨ncols, rows⟩

end Engine

/-! Helper lemmas about the embedded operations. -/

lemma set_append_singleton {α : Type} (ps : List α) (a b : α) :
    (ps ++ [a]).set ps.length b = ps ++ [b] := by
  induction ps with
  | nil => simp
  | cons x t ih => simp [List.set, ih]

lemma writeItems_of_pos (mk : String → Pptx.Paragraph) (items : List String) :
    ∀ (k : Nat) (ps : List Pptx.Paragraph), ps.length = k → 0 < k →
      Pptx.writeItems mk ps k items = ps ++ items.map mk := by
  induction items with
  | nil => intro k ps _ _; simp [Pptx.writeItems]
  | cons item rest ih =>
      intro k ps hlen hk
      simp only [Pptx.writeItems, if_pos hk]
      have hset : (ps ++ [({} : Pptx.Paragraph)]).set k (mk item) = ps ++ [mk item] := by
        rw [← hlen]; exact set_append_singleton ps _ _
      rw [hset, ih (k + 1) (ps ++ [mk item]) (by simp [hlen]) (Nat.succ_pos k)]
      simp

lemma fillParagraphs_nil (mk : String → Pptx.Paragraph) :
    Pptx.fillParagraphs mk [] = [({} : Pptx.Paragraph)] := rfl

lemma fillParagraphs_cons (mk : String → Pptx.Paragraph) (a : String) (rest : List String) :
    Pptx.fillParagraphs mk (a :: rest) = mk a :: rest.map mk := by
  simp only [Pptx.fillParagraphs, Pptx.writeItems, if_neg (Nat.lt_irrefl 0)]
  rw [show ([({} : Pptx.Paragraph)]).set 0 (mk a) = [mk a] from rfl]
  rw [writeItems_of_pos mk rest 1 [mk a] rfl Nat.one_pos]
  rfl

lemma fillParagraphs_of_ne_nil (mk : String → Pptx.Paragraph) (items : List String)
    (h : items ≠ []) : Pptx.fillParagraphs mk items = items.map mk := by
  cases items with
  | nil => exact absurd rfl h
  | cons a rest => simp [fillParagraphs_cons]

lemma paginateAux_join (H : Nat) (hgt : Elem → Nat) :
    ∀ (es : List Elem) (used : Nat) (cur : List Elem),
      (Engine.paginateAux H hgt es used cur).flatten
        = cur ++ es.filter (fun e => decide (e ≠ Elem.pageBreak)) := by
  intro es
  induction es with
  | nil =>
      intro used cur
      by_cases h : cur = [] <;> simp [Engine.paginateAux, h]
  | cons e rest ih =>
      intro used cur
      simp only [Engine.paginateAux]
      by_cases h1 : e = Elem.pageBreak
      · simp [h1, ih, List.filter_cons]
      · rw [if_neg h1]
        by_cases h2 : cur ≠ [] ∧ H < used + hgt e
        · rw [if_pos h2]
          simp [ih, List.filter_cons, h1]
        · rw [if_neg h2]
          simp [ih, List.filter_cons, h1]

lemma paginateAux_length (H : Nat) (hgt : Elem → Nat) :
    ∀ (es : List Elem) (used : Nat) (cur : List Elem),
      (Engine.paginateAux H hgt es used cur).length
        = Engine.countBoundariesAux H hgt es used (!cur.isEmpty) := by
  intro es
  induction es with
  | nil =>
      intro used cur
      cases cur <;> simp [Engine.paginateAux, Engine.countBoundariesAux]
  | cons e rest ih =>
      intro used cur
      simp only [Engine.paginateAux, Engine.countBoundariesAux]
      by_cases h1 : e = Elem.pageBreak
      · rw [if_pos h1, if_pos h1]
        simp only [List.length_cons, ih 0 []]
        simp [Nat.add_comm]
      · rw [if_neg h1, if_neg h1]
        cases cur with
        | nil =>
            rw [if_neg (by simp), if_neg (by simp)]
            simpa using ih (used + hgt e) [e]
        | cons c cs =>
            by_cases h3 : H < used + hgt e
            · rw [if_pos ⟨by simp, h3⟩, if_pos ⟨by simp, h3⟩]
              simp only [List.length_cons, ih (hgt e) [e]]
              simp [Nat.add_comm]
            · rw [if_neg (by simp [h3]), if_neg (by simp [h3])]
              simpa using ih (used + hgt e) (c :: cs ++ [e])

lemma checkRows_append (ncols : Nat) :
    ∀ (good : List (List String)) (k : Nat) (bad : List String) (rest : List (List String)),
      (∀ r ∈ good, r.length = ncols) → bad.length ≠ ncols →
      Engine.checkRows ncols k (good ++ bad :: rest) = Except.error ⟨k + good.length⟩ := by
  intro good
  induction good with
  | nil =>
      intro k bad rest _ hbad
      simp [Engine.checkRows, hbad]
  | cons g gs ih =>
      intro k bad rest hgood hbad
      have hg : g.length = ncols := hgood g (by simp)
      have hrec := ih (k + 1) bad rest (fun r hr => hgood r (by simp [hr])) hbad
      simp only [List.cons_append, Engine.checkRows, if_pos hg, List.append_eq, hrec]
      have hidx : k + 1 + gs.length = k + (g :: gs).length := by
        simp only [List.length_cons]
        omega
      rw [hidx]

lemma checkRows_ok (ncols : Nat) :
    ∀ (rows : List (List String)) (k : Nat),
      Engine.checkRows ncols k rows = Except.ok () → ∀ r ∈ rows, r.length = ncols := by
  intro rows
  induction rows with
  | nil => intro k _ r hr; simp at hr
  | cons x xs ih =>
      intro k hok r hr
      by_cases hx : x.length = ncols
      · simp only [Engine.checkRows, if_pos hx] at hok
        rcases List.mem_cons.mp hr with h | h
        · rw [h]; exact hx
        · exact ih (k + 1) hok r h
      · simp [Engine.checkRows, hx] at hok

/-! The claims. -/

/-- C1, counterexample: the claim that all three generation functions are
deterministic on a fixed input fails on the code: `create_pdf` of
`generate_final_pitch_deck.py` interpolates the run date obtained from
`datetime.now()` into its cover page, so two runs on different dates produce
different element lists. -/
theorem c1_counterexample :
    PdfFinal.create_pdf "November 20, 2025" ≠ PdfFinal.create_pdf "November 21, 2025" := by
  decide

/-- C1, amended: `create_pdf` of `generate_pitch_deck_pdf.py` and
`create_pitch_deck` of `generate_pitch_deck.py` are deterministic — their
output does not depend on the run date — while `create_pdf` of
`generate_final_pitch_deck.py` embeds the run date into the cover page, so
its artifact differs between runs on different dates. -/
theorem c1_determinism_amended :
    (∀ d₁ d₂ : String, PdfDeck.create_pdf d₁ = PdfDeck.create_pdf d₂)
  ∧ (∀ d₁ d₂ : String, Pptx.create_pitch_deck d₁ = Pptx.create_pitch_deck d₂)
  ∧ PdfFinal.create_pdf "July 04, 2026" ≠ PdfFinal.create_pdf "July 05, 2026" := by
  refine ⟨fun _ _ => rfl, fun _ _ => rfl, ?_⟩
  decide

/-- C2: in the flow backend's pagination engine, placement is atomic: the
concatenation of the produced pages is exactly the non-break element
sequence (every block lies whole in exactly one page, in authoring order),
and a non-break block that no longer fits on a non-empty current page closes
that page and is placed whole as the first block of the next page — never
partially on each. -/
theorem c2_atomic_placement :
    (∀ (H : Nat) (hgt : Elem → Nat) (es : List Elem),
        (Engine.paginate H hgt es).flatten
          = es.filter (fun e => decide (e ≠ Elem.pageBreak)))
  ∧ (∀ (H : Nat) (hgt : Elem → Nat) (e : Elem) (rest : List Elem) (used : Nat)
        (cur : List Elem), e ≠ Elem.pageBreak → cur ≠ [] → H < used + hgt e →
        Engine.paginateAux H hgt (e :: rest) used cur
          = cur :: Engine.paginateAux H hgt rest (hgt e) [e]) := by
  constructor
  · intro H hgt es
    simpa using paginateAux_join H hgt es 0 []
  · intro H hgt e rest used cur h1 h2 h3
    simp only [Engine.paginateAux, if_neg h1, if_pos (And.intro h2 h3)]

/-- Witness for C2: with usable height 100, a block of height 60 arriving on
a page already filled to 60 is pushed whole onto a fresh next page. -/
theorem c2_atomic_placement_witness :
    Engine.paginateAux 100 (fun _ => 60) [Elem.spacer 50] 60 [Elem.spacer 99]
      = [[Elem.spacer 99], [Elem.spacer 50]] := by
  have h := c2_atomic_placement.2 100 (fun _ => 60) (Elem.spacer 50) [] 60 [Elem.spacer 99]
      (by decide) (by simp) (by norm_num)
  rw [h]
  rfl

/-- C3: an empty-string item in a bullet-like sequence is rendered as a
blank-line spacer, never as a bullet, at every rendering site: the
spacer-branch loops of `generate_final_pitch_deck.py` emit a `Spacer` for
it; the plain bullet loops of the PDF scripts and the content and two-column
item loops of `generate_pitch_deck.py` emit a paragraph with empty text
(a blank line carrying no bullet). -/
theorem c3_blank_item :
    (∀ (st : PStyle) (h : Nat) (items : List String) (i : Nat),
        items[i]? = some "" →
        (bulletsOrSpacers st h items)[i]? = some (Elem.spacer h))
  ∧ (∀ (st : PStyle) (items : List String) (i : Nat),
        items[i]? = some "" →
        (bulletParagraphs st items)[i]? = some (Elem.paragraph "" st))
  ∧ (∀ (items : List String) (i : Nat),
        items[i]? = some "" →
        ((Pptx.fillParagraphs Pptx.mkContentPara items)[i]?).map Pptx.Paragraph.text
          = some "")
  ∧ (∀ (items : List String) (i : Nat),
        items[i]? = some "" →
        ((Pptx.fillParagraphs Pptx.mkColumnPara items)[i]?).map Pptx.Paragraph.text
          = some "") := by
  refine ⟨?_, ?_, ?_, ?_⟩
  · intro st h items i hi
    simp [bulletsOrSpacers, List.getElem?_map, hi]
  · intro st items i hi
    simp [bulletParagraphs, List.getElem?_map, hi]
  · intro items i hi
    have hne : items ≠ [] := by
      intro hnil
      subst hnil
      simp at hi
    rw [fillParagraphs_of_ne_nil _ _ hne, List.getElem?_map, hi]
    rfl
  · intro items i hi
    have hne : items ≠ [] := by
      intro hnil
      subst hnil
      simp at hi
    rw [fillParagraphs_of_ne_nil _ _ hne, List.getElem?_map, hi]
    rfl

/-- Witness for C3: in a concrete bullet run, the empty item at index 1 is
rendered as a spacer of the loop's blank-line height. -/
theorem c3_blank_item_witness :
    (bulletsOrSpacers PdfFinal.bullet_style 10 ["• a", "", "• b"])[1]?
      = some (Elem.spacer 10) :=
  c3_blank_item.1 PdfFinal.bullet_style 10 ["• a", "", "• b"] 1 rfl

/-- C4: a Table block whose declared column count matches every row renders
all of its rows whole, while a table whose first offending row has a cell
count different from the declared column count fails fast with a
`StructuralValidationError` carrying exactly that row's index — no truncated
or partial row is rendered. -/
theorem c4_table_validation :
    (∀ (ncols : Nat) (rows : List (List String)) (t : Engine.RenderedTable),
        Engine.renderTable ncols rows = Except.ok t →
        t.rows = rows ∧ ∀ r ∈ t.rows, r.length = ncols)
  ∧ (∀ (ncols : Nat) (good : List (List String)) (bad : List String)
        (rest : List (List String)),
        (∀ r ∈ good, r.length = ncols) → bad.length ≠ ncols →
        Engine.renderTable ncols (good ++ bad :: rest)
          = Except.error ⟨good.length⟩) := by
  constructor
  · intro ncols rows t hok
    have hcheck : Engine.checkRows ncols 0 rows = Except.ok () := by
      unfold Engine.renderTable at hok
      cases h : Engine.checkRows ncols 0 rows with
      | error e => rw [h] at hok; cases hok
      | ok u => cases u; rfl
    unfold Engine.renderTable at hok
    rw [hcheck] at hok
    cases hok
    exact ⟨rfl, checkRows_ok ncols rows 0 hcheck⟩
  · intro ncols good bad rest hgood hbad
    unfold Engine.renderTable
    rw [checkRows_append ncols good 0 bad rest hgood hbad]
    simp

/-- Witness for C4: the spec's example scenario — a 2-column table given a
3-cell second row fails with the error naming row index 1. -/
theorem c4_table_validation_witness :
    Engine.renderTable 2 [["Hedera Services Used", "Integration Metrics"], ["a", "b", "c"]]
      = Except.error ⟨1⟩ := by
  have h := c4_table_validation.2 2 [["Hedera Services Used", "Integration Metrics"]]
      ["a", "b", "c"] [] (by decide) (by decide)
  simpa using h

/-- C5: rendered order equals authoring order in both backends: the flow
backend's bullet loops emit paragraphs whose reading order is exactly the
item order, the slide backend's item loops write paragraph texts in exactly
the item order, and each slide-building call appends its slide after all
previously built slides (insertion order). -/
theorem c5_order_preservation :
    (∀ (st : PStyle) (items : List String),
        (bulletParagraphs st items).filterMap Elem.textOf = items)
  ∧ (∀ (items : List String), items ≠ [] →
        (Pptx.fillParagraphs Pptx.mkContentPara items).map Pptx.Paragraph.text = items)
  ∧ (∀ (items : List String), items ≠ [] →
        (Pptx.fillParagraphs Pptx.mkColumnPara items).map Pptx.Paragraph.text = items)
  ∧ (∀ (prs : Pptx.Presentation) (t : String) (items : List String),
        (Pptx.add_content_slide prs t items).slides
          = prs.slides ++ [Pptx.contentSlide t items])
  ∧ (∀ (prs : Pptx.Presentation) (t : String) (l r : List String),
        (Pptx.add_two_column_slide prs t l r).slides
          = prs.slides ++ [Pptx.twoColumnSlide t l r]) := by
  refine ⟨?_, ?_, ?_, fun _ _ _ => rfl, fun _ _ _ _ => rfl⟩
  · intro st items
    induction items with
    | nil => rfl
    | cons a rest ih => simp [bulletParagraphs, Elem.textOf, List.filterMap_cons] at ih ⊢; exact ih
  · intro items h
    rw [fillParagraphs_of_ne_nil _ _ h, List.map_map]
    rw [show Pptx.Paragraph.text ∘ Pptx.mkContentPara = id from rfl, List.map_id]
  · intro items h
    rw [fillParagraphs_of_ne_nil _ _ h, List.map_map]
    rw [show Pptx.Paragraph.text ∘ Pptx.mkColumnPara = id from rfl, List.map_id]

/-- Witness for C5: the slide-backend item loop reproduces a concrete item
list in its authoring order. -/
theorem c5_order_preservation_witness :
    (Pptx.fillParagraphs Pptx.mkContentPara ["alpha", "beta"]).map Pptx.Paragraph.text
      = ["alpha", "beta"] :=
  c5_order_preservation.2.1 ["alpha", "beta"] (by decide)

/-- C6: the pagination engine is a total function (the statement evaluates it
on arbitrary inputs), a Break block closes the current page so the next
block starts a new one, the last open page is flushed even when it holds a
single block, the number of pages produced equals the number of pagination
boundaries the engine computes (explicit breaks plus overflow boundaries
plus the final flush), and the canvas backend's slide count equals its
number of authored groupings (17 slide-building calls). -/
theorem c6_break_and_page_count :
    (∀ (H : Nat) (hgt : Elem → Nat) (rest : List Elem) (used : Nat) (cur : List Elem),
        Engine.paginateAux H hgt (Elem.pageBreak :: rest) used cur
          = cur :: Engine.paginateAux H hgt rest 0 [])
  ∧ (∀ (H : Nat) (hgt : Elem → Nat) (used : Nat) (e : Elem),
        Engine.paginateAux H hgt [] used [e] = [[e]])
  ∧ (∀ (H : Nat) (hgt : Elem → Nat) (es : List Elem),
        (Engine.paginate H hgt es).length = Engine.countBoundaries H hgt es)
  ∧ (∀ today : String, (Pptx.create_pitch_deck today).slides.length = 17) := by
  refine ⟨?_, ?_, ?_, fun _ => rfl⟩
  · intro H hgt rest used cur
    simp [Engine.paginateAux]
  · intro H hgt used e
    simp [Engine.paginateAux]
  · intro H hgt es
    simpa using paginateAux_length H hgt es 0 []

/-- C7: in the slide backend every slide-building helper adds exactly one
slide to the presentation, regardless of how much content it is given, and
the complete `create_pitch_deck` run yields exactly as many slides as it
makes slide-building calls (17); overflowing content never introduces a
slide. -/
theorem c7_one_slide_per_call :
    (∀ (prs : Pptx.Presentation) (t s : String),
        (Pptx.add_title_slide prs t s).slides.length = prs.slides.length + 1)
  ∧ (∀ (prs : Pptx.Presentation) (t : String) (items : List String),
        (Pptx.add_content_slide prs t items).slides.length = prs.slides.length + 1)
  ∧ (∀ (prs : Pptx.Presentation) (t : String) (l r : List String),
        (Pptx.add_two_column_slide prs t l r).slides.length = prs.slides.length + 1)
  ∧ (∀ today : String, (Pptx.create_pitch_deck today).slides.length = 17) := by
  refine ⟨?_, ?_, ?_, fun _ => rfl⟩
  · intro prs t s
    simp [Pptx.add_title_slide]
  · intro prs t items
    simp [Pptx.add_content_slide]
  · intro prs t l r
    simp [Pptx.add_two_column_slide]

/-- C8: every two-column layout gives both columns equal width: the slide
backend's column boxes are both 4.5 inches wide, separated by a fixed 0.4
inch gutter with 0.3 inch outer margins inside the 10 inch slide (the
available width split evenly minus the gutter), each box is a function of
its own item list alone (the columns are laid out independently, with fixed
top and height), and the flow backend's two-column criteria table of
`generate_final_pitch_deck.py` declares two equal column widths. -/
theorem c8_two_column_layout :
    (∀ (l r : List String), (Pptx.leftColumnBox l).width = (Pptx.rightColumnBox r).width)
  ∧ (∀ (today : String) (l r : List String),
        (Pptx.leftColumnBox l).left = 30
      ∧ (Pptx.leftColumnBox l).left + (Pptx.leftColumnBox l).width + 40
          = (Pptx.rightColumnBox r).left
      ∧ (Pptx.rightColumnBox r).left + (Pptx.rightColumnBox r).width + 30
          = (Pptx.create_pitch_deck today).slideWidth)
  ∧ (∀ (t : String) (l r : List String),
        (Pptx.twoColumnSlide t l r).shapes
          = [Pptx.titleBarShape t, Pptx.leftColumnBox l, Pptx.rightColumnBox r])
  ∧ (∀ (l : List String),
        (Pptx.leftColumnBox l).top = 120 ∧ (Pptx.leftColumnBox l).height = 600)
  ∧ (∀ (r : List String),
        (Pptx.rightColumnBox r).top = 120 ∧ (Pptx.rightColumnBox r).height = 600)
  ∧ (∀ today : String,
        Elem.table PdfFinal.criteria_data [450, 450] PdfFinal.criteria_table_style
          ∈ PdfFinal.create_pdf today) := by
  refine ⟨fun _ _ => rfl, fun _ _ _ => ⟨rfl, rfl, rfl⟩, fun _ _ _ => rfl,
    fun _ => ⟨rfl, rfl⟩, fun _ => ⟨rfl, rfl⟩, ?_⟩
  intro today
  simp [PdfFinal.create_pdf]

/-- C9: in canvas mode block positions are fixed absolute offsets: on every
content and two-column slide the title bar is the first shape and spans the
full 10 inch slide width as a fixed 0.8 inch strip starting at the top-left
corner, and the body content boxes always start at the fixed vertical offset
of 1.2 inches, whatever the slide's content. -/
theorem c9_fixed_canvas_offsets :
    (∀ (t : String) (items : List String),
        (Pptx.contentSlide t items).shapes.get? 0 = some (Pptx.titleBarShape t)
      ∧ (Pptx.contentSlide t items).shapes.get? 1 = some (Pptx.contentBox items))
  ∧ (∀ t : String,
        (Pptx.titleBarShape t).left = 0 ∧ (Pptx.titleBarShape t).top = 0
      ∧ (Pptx.titleBarShape t).width = 1000 ∧ (Pptx.titleBarShape t).height = 80)
  ∧ (∀ today : String, (Pptx.create_pitch_deck today).slideWidth = 1000)
  ∧ (∀ items : List String, (Pptx.contentBox items).top = 120)
  ∧ (∀ (t : String) (l r : List String),
        (Pptx.twoColumnSlide t l r).shapes.get? 0 = some (Pptx.titleBarShape t)
      ∧ (Pptx.leftColumnBox l).top = 120 ∧ (Pptx.rightColumnBox r).top = 120) :=
  ⟨fun _ _ => ⟨rfl, rfl⟩, fun _ => ⟨rfl, rfl, rfl, rfl⟩, fun _ => rfl, fun _ => rfl,
    fun _ _ _ => ⟨rfl, rfl, rfl⟩⟩

/-- C10: in the slide backend's item loops, the first item overwrites the
frame's single initial (empty) paragraph and each further item appends
exactly one paragraph, so for a non-empty item list the frame holds exactly
one styled paragraph per item, with item i at paragraph index i; for an
empty item list the frame keeps exactly its one empty paragraph. -/
theorem c10_paragraph_indexing :
    (∀ mk : String → Pptx.Paragraph, Pptx.fillParagraphs mk [] = [({} : Pptx.Paragraph)])
  ∧ ({} : Pptx.Paragraph).text = ""
  ∧ (∀ (mk : String → Pptx.Paragraph) (items : List String), items ≠ [] →
        Pptx.fillParagraphs mk items = items.map mk)
  ∧ (∀ (mk : String → Pptx.Paragraph) (items : List String), items ≠ [] →
        (Pptx.fillParagraphs mk items).length = items.length)
  ∧ (∀ (items : List String) (i : Nat), items ≠ [] →
        ((Pptx.fillParagraphs Pptx.mkContentPara items)[i]?).map Pptx.Paragraph.text
          = items[i]?)
  ∧ (∀ (items : List String) (i : Nat), items ≠ [] →
        ((Pptx.fillParagraphs Pptx.mkColumnPara items)[i]?).map Pptx.Paragraph.text
          = items[i]?) := by
  refine ⟨fun mk => fillParagraphs_nil mk, rfl, ?_, ?_, ?_, ?_⟩
  · intro mk items h
    exact fillParagraphs_of_ne_nil mk items h
  · intro mk items h
    rw [fillParagraphs_of_ne_nil mk items h, List.length_map]
  · intro items i h
    rw [fillParagraphs_of_ne_nil _ _ h, List.getElem?_map]
    cases items[i]? <;> rfl
  · intro items i h
    rw [fillParagraphs_of_ne_nil _ _ h, List.getElem?_map]
    cases items[i]? <;> rfl

/-- Witness for C10: the content-item loop on a concrete three-item list
produces exactly the three styled paragraphs in order. -/
theorem c10_paragraph_indexing_witness :
    Pptx.fillParagraphs Pptx.mkContentPara ["one", "two", "three"]
      = [Pptx.mkContentPara "one", Pptx.mkContentPara "two", Pptx.mkContentPara "three"] := by
  have h := c10_paragraph_indexing.2.2.1 Pptx.mkContentPara ["one", "two", "three"] (by decide)
  simpa using h

end DreamMarket
